import Mathlib

/-
  Verification of the orchestration layer of the Audio-Translator bot
  (src/app.py) against its natural-language specification.

  The Python module is shallowly embedded below.  Remarks on fidelity:

  * src/app.py as committed does not parse: the `run_in_executor` call
    opened at line 62 is never closed, so `text = " ".join(...)` (line 66)
    and `translation = await ...` (line 69) are swallowed as keyword
    arguments and the `return` at line 73 is a SyntaxError.  The embedding
    models the evident intent (a single missing `)` after the lambda at
    line 64, matching the style of lines 69-71); the defect is recorded in
    the results for the claims whose cited lines contain it.

  * External collaborators (pydub, faster_whisper, googletrans, gTTS,
    moviepy, ffmpeg, the Telegram transport) are opaque services; each
    fallible call is driven by an oracle field of an environment record
    saying whether (and with what payload) the call returns or raises.

  * The filesystem effects that matter to the spec (NamedTemporaryFile
    creation, `with`-scope deletion, `os.unlink`) are modelled by a poor
    man's heap: a list of (unique id, kind) pairs of currently existing
    temporary files, plus append-only histories (files ever created, WAV
    payloads ever written, translator arguments, reply attempts).
-/

namespace AudioTranslator

/-- A pydub AudioSegment, reduced to the two attributes the orchestration
layer manipulates (`set_frame_rate`, `set_channels`, lines 54-55). -/
structure AudioSegment where
  frame_rate : Nat
  channels : Nat
deriving DecidableEq, Repr

/-- pydub `AudioSegment.set_frame_rate` (line 55): returns a copy with the
given frame rate. -/
def AudioSegment.set_frame_rate (a : AudioSegment) (r : Nat) : AudioSegment :=
  { a with frame_rate := r }

/-- pydub `AudioSegment.set_channels` (line 55): returns a copy with the
given channel count. -/
def AudioSegment.set_channels (a : AudioSegment) (c : Nat) : AudioSegment :=
  { a with channels := c }

/-- The kind of a temporary artifact, by the suffix the source gives it:
`.ogg` download (line 85), `.mp4` download (line 119), `.wav` normalized or
extracted audio (lines 58, 120), `.mp3` synthesized speech (lines 94, 136),
`.mp4` remuxed output (line 137). -/
inductive FileKind
  | ogg
  | vidIn
  | wavFile
  | mp3
  | vidOut
deriving DecidableEq, Repr

/-- A message sent to the chat: `reply_text` (lines 107, 158),
`reply_audio` (lines 100-104), `reply_video` (lines 151-155). -/
inductive Reply
  | text (s : String)
  | audio (title performer : String)
  | video (caption : String)
deriving DecidableEq, Repr

/-- The exception that aborted a pipeline stage.  Each constructor names
the raising call in src/app.py. -/
inductive PyErr
  | modelLoadError      -- WhisperModel(...) raised (line 38)
  | downloadError       -- download_to_drive raised (lines 88, 124)
  | decodeError         -- AudioSegment.from_file raised (line 54)
  | exportError         -- audio.export raised (line 59)
  | transcribeError     -- model.transcribe raised (line 64)
  | translateError      -- translator.translate raised (line 71)
  | ttsError            -- gTTS(...).save raised (lines 97, 142)
  | noAudioTrack        -- VideoFileClip(...).audio is None (line 129)
  | extractError        -- write_audiofile raised (lines 129-130)
  | replyError          -- reply_audio / reply_video raised (lines 100, 151)
deriving DecidableEq, Repr

/-- The observable state of one request: the temporary files currently on
disk, append-only histories of everything the request did to the outside
world, and the acknowledgment bookkeeping. -/
structure World where
  nextId : Nat
  files : List (Nat × FileKind)          -- temp files currently existing
  created : List (Nat × FileKind)        -- temp files ever created
  wavWrites : List AudioSegment          -- payloads ever exported to a WAV
  translateArgs : List String            -- texts ever passed to translate
  replyAttempts : List Reply             -- every send attempted
  replies : List Reply                   -- every send that succeeded
  acksSent : Nat                         -- processing... messages sent
  ackDeletes : Nat                       -- processing_msg.delete() calls
deriving DecidableEq, Repr

/-- The per-request initial world: nothing created, nothing sent. -/
def World.init : World :=
  ⟨0, [], [], [], [], [], [], 0, 0⟩

/-- tempfile.NamedTemporaryFile: creates a fresh uniquely-named file and
returns its id. -/
def World.create (w : World) (k : FileKind) : Nat × World :=
  (w.nextId,
   { w with
       nextId := w.nextId + 1
       files := (w.nextId, k) :: w.files
       created := (w.nextId, k) :: w.created })

/-- Deletion of a temporary file by name: `os.unlink` (line 76) and the
implicit deletion performed when a `with NamedTemporaryFile(...)` scope
exits (delete=True default).  Removing an absent file is a no-op, which
also models the `os.path.exists` guard at line 75. -/
def World.unlink (w : World) (fid : Nat) : World :=
  { w with files := w.files.filter fun p => p.1 ≠ fid }

/-- Record an attempted send that succeeded. -/
def World.send (w : World) (r : Reply) : World :=
  { w with replyAttempts := w.replyAttempts ++ [r], replies := w.replies ++ [r] }

/-- Record an attempted send that raised before delivery. -/
def World.sendFailed (w : World) (r : Reply) : World :=
  { w with replyAttempts := w.replyAttempts ++ [r] }

/-- Oracle for one run of `process_audio` (lines 50-76): what each opaque
service call returns, `none` meaning it raises. -/
structure PipelineEnv where
  decodeRes : Option AudioSegment        -- AudioSegment.from_file (line 54)
  exportOk : Bool                        -- audio.export (line 59)
  transcribeRes : Option (List String)   -- segment texts, in order (line 64)
  translateRes : Option String           -- translation.text (lines 71-73)
deriving DecidableEq, Repr

/-- Line 66: `text = " ".join([segment.text for segment in segments])`
(modulo the enclosing unclosed-parenthesis SyntaxError, see the header). -/
def joinSegments (segs : List String) : String :=
  String.intercalate " " segs

/-- Modelled from the spec: the transcript-assembly contract in its own
words — the segments' texts concatenated in segment order with a single
space between consecutive segments (spec 4.3 step 1).  Used only to be
compared with `joinSegments`, the definition taken from the source. -/
def specTranscript : List String → String
  | [] => ""
  | [s] => s
  | s :: rest => s ++ " " ++ specTranscript rest

/-- Helper for relating `String.intercalate` to `specTranscript`: the part
of a space-joined transcript contributed by every segment after the
first. -/
def specTranscriptTail : List String → String
  | [] => ""
  | s :: rest => " " ++ s ++ specTranscriptTail rest

/-- TranslationBot.process_audio (lines 50-76).  Control flow mirrors the
source: a `try` body that decodes, normalizes to 16 kHz mono, exports to a
`delete=False` temporary WAV, transcribes, joins the segments and
translates; and a `finally` that unlinks the WAV if it was created (the
`with` scope itself does not delete it, since delete=False).  Returns the
translated text or the propagated exception, with the updated world. -/
def process_audio (env : PipelineEnv) (w : World) :
    Except PyErr String × World :=
  match env.decodeRes with
  | none => (.error .decodeError, w)    -- wav_file not in locals; finally skips
  | some a0 =>
    let a := (a0.set_frame_rate 16000).set_channels 1
    let (wavId, w) := w.create .wavFile
    if !env.exportOk then (.error .exportError, w.unlink wavId)
    else
      let w := { w with wavWrites := w.wavWrites ++ [a] }
      match env.transcribeRes with
      | none => (.error .transcribeError, w.unlink wavId)
      | some segs =>
        let text := joinSegments segs
        let w := { w with translateArgs := w.translateArgs ++ [text] }
        match env.translateRes with
        | none => (.error .translateError, w.unlink wavId)
        | some tr => (.ok tr, w.unlink wavId)

/-- Oracle for one run of `handle_audio` (lines 78-109). -/
structure AudioEnv where
  loadOk : Bool                          -- load_model (line 83)
  downloadOk : Bool                      -- download_to_drive (line 88)
  pipe : PipelineEnv                     -- process_audio (line 91)
  ttsOk : Bool                           -- gTTS(...).save (line 97)
  replyOk : Bool                         -- reply_audio (lines 100-104)
deriving DecidableEq, Repr

/-- The `try` body of handle_audio (lines 82-104): load the model, download
into a `.ogg` temporary, run `process_audio`, synthesize into a `.mp3`
temporary, reply with the audio.  Both temporaries are `with`-scoped
(delete=True), so they are removed on every exit from their scope. -/
def run_audio_try (env : AudioEnv) (w : World) : Except PyErr Unit × World :=
  if !env.loadOk then (.error .modelLoadError, w)
  else
    let (oggId, w) := w.create .ogg
    if !env.downloadOk then (.error .downloadError, w.unlink oggId)
    else
      match process_audio env.pipe w with
      | (.error e, w) => (.error e, w.unlink oggId)
      | (.ok _, w) =>
        let (mp3Id, w) := w.create .mp3
        if !env.ttsOk then (.error .ttsError, (w.unlink mp3Id).unlink oggId)
        else
          let r := Reply.audio "Translated Audio" "Translation Bot"
          if !env.replyOk then
            (.error .replyError, ((w.sendFailed r).unlink mp3Id).unlink oggId)
          else
            (.ok (), ((w.send r).unlink mp3Id).unlink oggId)

/-- TranslationBot.handle_audio (lines 78-109): send the acknowledgment,
run the `try` body, on any exception reply with the fixed audio error
message (line 107), and in `finally` delete the acknowledgment (line 109). -/
def handle_audio (env : AudioEnv) (w : World) : World :=
  let w := { w with acksSent := w.acksSent + 1 }
  let (res, w) := run_audio_try env w
  let w :=
    match res with
    | .error _ => w.send (.text "❌ Error processing audio. Please try again.")
    | .ok _ => w
  { w with ackDeletes := w.ackDeletes + 1 }

/-- Oracle for one run of `handle_video` (lines 111-160). -/
structure VideoEnv where
  loadOk : Bool                          -- load_model (line 116)
  downloadOk : Bool                      -- download_to_drive (line 124)
  hasAudioTrack : Bool                   -- VideoFileClip(...).audio (line 129)
  extractOk : Bool                       -- write_audiofile (lines 129-130)
  pipe : PipelineEnv                     -- process_audio (line 133)
  ttsOk : Bool                           -- gTTS(...).save (line 142)
  muxExit : Nat                          -- os.system(cmd) status (line 148)
  replyOk : Bool                         -- reply_video (lines 151-155)
deriving DecidableEq, Repr

/-- The `try` body of handle_video (lines 115-155): load the model,
download into a `.mp4` temporary, extract the audio track into a `.wav`
temporary (an AttributeError if the container has no audio track, since
`.audio` is None), run `process_audio`, synthesize into a `.mp3`
temporary, invoke the external mux (`os.system`, line 148) whose exit
status `env.muxExit` is bound to nothing, and reply with the `.mp4`
output.  All four temporaries are `with`-scoped (delete=True). -/
def run_video_try (env : VideoEnv) (w : World) : Except PyErr Unit × World :=
  if !env.loadOk then (.error .modelLoadError, w)
  else
    let (vidId, w) := w.create .vidIn
    let (wavId, w) := w.create .wavFile
    let exitOuter := fun (w : World) => (w.unlink wavId).unlink vidId
    if !env.downloadOk then (.error .downloadError, exitOuter w)
    else if !env.hasAudioTrack then (.error .noAudioTrack, exitOuter w)
    else if !env.extractOk then (.error .extractError, exitOuter w)
    else
      match process_audio env.pipe w with
      | (.error e, w) => (.error e, exitOuter w)
      | (.ok _, w) =>
        let (mp3Id, w) := w.create .mp3
        let (outId, w) := w.create .vidOut
        let exitInner := fun (w : World) => (w.unlink outId).unlink mp3Id
        if !env.ttsOk then (.error .ttsError, exitOuter (exitInner w))
        else
          -- line 148: os.system(cmd) runs; its result env.muxExit is dropped
          let r := Reply.video "Translated Video"
          if !env.replyOk then
            (.error .replyError, exitOuter (exitInner (w.sendFailed r)))
          else
            (.ok (), exitOuter (exitInner (w.send r)))

/-- TranslationBot.handle_video (lines 111-160): send the acknowledgment,
run the `try` body, on any exception reply with the fixed video error
message (line 158), and in `finally` delete the acknowledgment (line 160). -/
def handle_video (env : VideoEnv) (w : World) : World :=
  let w := { w with acksSent := w.acksSent + 1 }
  let (res, w) := run_video_try env w
  let w :=
    match res with
    | .error _ => w.send (.text "❌ Error processing video. Please try again.")
    | .ok _ => w
  { w with ackDeletes := w.ackDeletes + 1 }

/-! ### Model initializer, sequential view (lines 29-48)

`load_model` checks `self.model_loaded`, and if unset enters the lock,
re-checks, and constructs the WhisperModel; on construction failure the
exception is re-raised (line 48) and `model_loaded` is left false.  The
sequential view below is the behavior of one call running alone (the lock
is uncontended); the interleaved view follows. -/

/-- The model-initialization state of the bot: the `model_loaded` flag
(line 26) plus a history count of WhisperModel construction calls
(line 38), used to state "at most one construction" and "no retry". -/
structure LoadState where
  model_loaded : Bool
  constructions : Nat
deriving DecidableEq, Repr

/-- TranslationBot.load_model (lines 29-48), one uncontended call.
`constructOk` is the oracle for the WhisperModel constructor: `false`
means it raises.  Returns the propagated exception (if any) and the new
state; every constructor invocation bumps `constructions`. -/
def load_model (constructOk : Bool) (s : LoadState) :
    Except PyErr Unit × LoadState :=
  if s.model_loaded then (.ok (), s)    -- fast path, line 31
  else
    -- lock acquired (line 34); re-check (line 35)
    if s.model_loaded then (.ok (), s)
    else if constructOk then
      (.ok (), { model_loaded := true, constructions := s.constructions + 1 })
    else
      (.error .modelLoadError, { s with constructions := s.constructions + 1 })

/-! ### Model initializer, interleaved view (claim C4)

Several request tasks run `load_model` concurrently on the single event
loop; `asyncio.Lock` (line 27) serializes the critical section.  Each
task's position in the code is a program counter; a scheduler step picks
any task and advances it by one atomic action.  Construction is modelled
as succeeding (the failure behavior is the sequential claim C5). -/

/-- Program counter of one task inside `load_model`. -/
inductive LoadPC
  | start      -- about to run the fast check, line 31
  | waitLock   -- fast check saw not loaded; waiting at line 34
  | check2     -- holds the lock; about to re-check, line 35
  | construct  -- re-check saw not loaded; about to construct, line 38
  | unlock     -- about to release the lock on exiting the async-with
  | done       -- returned
deriving DecidableEq, Repr

/-- Global state of `n` tasks interleaving through `load_model`. -/
structure ConcState (n : Nat) where
  loaded : Bool                 -- self.model_loaded
  lockOwner : Option (Fin n)    -- holder of self.model_lock
  pcs : Fin n → LoadPC
  constructions : Nat           -- WhisperModel constructor calls so far

/-- Initial state: model not loaded, lock free, every task at the fast
check, no construction yet. -/
def ConcState.init (n : Nat) : ConcState n :=
  ⟨false, none, fun _ => .start, 0⟩

/-- One scheduler step: some task `i` performs its next atomic action of
`load_model`.  `asyncio.Lock.acquire` only proceeds when the lock is
free. -/
inductive LoadStep (n : Nat) : ConcState n → ConcState n → Prop
  | fastTrue (i : Fin n) (s : ConcState n) :
      s.pcs i = .start → s.loaded = true →
      LoadStep n s { s with pcs := Function.update s.pcs i .done }
  | fastFalse (i : Fin n) (s : ConcState n) :
      s.pcs i = .start → s.loaded = false →
      LoadStep n s { s with pcs := Function.update s.pcs i .waitLock }
  | acquire (i : Fin n) (s : ConcState n) :
      s.pcs i = .waitLock → s.lockOwner = none →
      LoadStep n s
        { s with lockOwner := some i, pcs := Function.update s.pcs i .check2 }
  | checkTrue (i : Fin n) (s : ConcState n) :
      s.pcs i = .check2 → s.loaded = true →
      LoadStep n s { s with pcs := Function.update s.pcs i .unlock }
  | checkFalse (i : Fin n) (s : ConcState n) :
      s.pcs i = .check2 → s.loaded = false →
      LoadStep n s { s with pcs := Function.update s.pcs i .construct }
  | construct (i : Fin n) (s : ConcState n) :
      s.pcs i = .construct →
      LoadStep n s
        { s with loaded := true, constructions := s.constructions + 1,
                 pcs := Function.update s.pcs i .unlock }
  | release (i : Fin n) (s : ConcState n) :
      s.pcs i = .unlock →
      LoadStep n s
        { s with lockOwner := none, pcs := Function.update s.pcs i .done }

/-- A state reachable from the initial state by scheduler steps. -/
def LoadReachable (n : Nat) (s : ConcState n) : Prop :=
  Relation.ReflTransGen (LoadStep n) (ConcState.init n) s

/-- The inductive invariant of the double-checked-locking protocol:
tasks in the critical section own the lock (hence there is at most one),
a task about to construct saw `loaded` false under the lock, `loaded`
only becomes true by constructing, and at most one construction ever
happens. -/
def LoadInv (n : Nat) (s : ConcState n) : Prop :=
  (∀ i, (s.pcs i = .check2 ∨ s.pcs i = .construct ∨ s.pcs i = .unlock) →
      s.lockOwner = some i) ∧
  (∀ i, s.pcs i = .construct → s.loaded = false) ∧
  (s.loaded = false → s.constructions = 0) ∧
  s.constructions ≤ 1

theorem loadInv_init (n : Nat) : LoadInv n (ConcState.init n) := by
  refine ⟨fun i hi => ?_, fun i hi => ?_, fun _ => rfl, ?_⟩
  · simp [ConcState.init] at hi
  · simp [ConcState.init] at hi
  · simp [ConcState.init]

theorem loadStep_inv {n : Nat} {s t : ConcState n}
    (hst : LoadStep n s t) (h : LoadInv n s) : LoadInv n t := by
  obtain ⟨h1, h2, h3, h4⟩ := h
  cases hst with
  | fastTrue i _s hpc hld =>
    refine ⟨fun j hj => ?_, fun j hj => ?_, h3, h4⟩ <;>
    · dsimp only at hj ⊢
      by_cases hij : j = i
      · subst hij; simp [Function.update_same] at hj
      · rw [Function.update_noteq hij] at hj
        first
        | exact h1 j hj
        | exact h2 j hj
  | fastFalse i _s hpc hld =>
    refine ⟨fun j hj => ?_, fun j hj => ?_, h3, h4⟩ <;>
    · dsimp only at hj ⊢
      by_cases hij : j = i
      · subst hij; simp [Function.update_same] at hj
      · rw [Function.update_noteq hij] at hj
        first
        | exact h1 j hj
        | exact h2 j hj
  | acquire i _s hpc hlock =>
    refine ⟨fun j hj => ?_, fun j hj => ?_, h3, h4⟩
    · dsimp only at hj ⊢
      by_cases hij : j = i
      · subst hij; rfl
      · rw [Function.update_noteq hij] at hj
        exact Option.noConfusion (hlock ▸ h1 j hj)
    · dsimp only at hj
      by_cases hij : j = i
      · subst hij; simp [Function.update_same] at hj
      · rw [Function.update_noteq hij] at hj
        exact h2 j hj
  | checkTrue i _s hpc hld =>
    refine ⟨fun j hj => ?_, fun j hj => ?_, h3, h4⟩
    · dsimp only at hj ⊢
      by_cases hij : j = i
      · subst hij; exact h1 j (Or.inl hpc)
      · rw [Function.update_noteq hij] at hj
        exact h1 j hj
    · dsimp only at hj
      by_cases hij : j = i
      · subst hij; simp [Function.update_same] at hj
      · rw [Function.update_noteq hij] at hj
        exact h2 j hj
  | checkFalse i _s hpc hld =>
    refine ⟨fun j hj => ?_, fun j hj => ?_, h3, h4⟩
    · dsimp only at hj ⊢
      by_cases hij : j = i
      · subst hij; exact h1 j (Or.inl hpc)
      · rw [Function.update_noteq hij] at hj
        exact h1 j hj
    · dsimp only at hj ⊢
      by_cases hij : j = i
      · exact hld
      · rw [Function.update_noteq hij] at hj
        exact h2 j hj
  | construct i _s hpc =>
    have hld : s.loaded = false := h2 i hpc
    have hc0 : s.constructions = 0 := h3 hld
    refine ⟨fun j hj => ?_, fun j hj => ?_, fun hl => ?_, ?_⟩
    · dsimp only at hj ⊢
      by_cases hij : j = i
      · subst hij; exact h1 j (Or.inr (Or.inl hpc))
      · rw [Function.update_noteq hij] at hj
        exact h1 j hj
    · dsimp only at hj ⊢
      by_cases hij : j = i
      · subst hij; simp [Function.update_same] at hj
      · rw [Function.update_noteq hij] at hj
        have h5 : some j = some i :=
          (h1 j (Or.inr (Or.inl hj))).symm.trans (h1 i (Or.inr (Or.inl hpc)))
        exact absurd (Option.some.inj h5) hij
    · dsimp only at hl
      exact Bool.noConfusion hl
    · dsimp only
      omega
  | release i _s hpc =>
    refine ⟨fun j hj => ?_, fun j hj => ?_, h3, h4⟩
    · dsimp only at hj ⊢
      by_cases hij : j = i
      · subst hij; simp [Function.update_same] at hj
      · rw [Function.update_noteq hij] at hj
        have h5 : some j = some i :=
          (h1 j hj).symm.trans (h1 i (Or.inr (Or.inr hpc)))
        exact absurd (Option.some.inj h5) hij
    · dsimp only at hj
      by_cases hij : j = i
      · subst hij; simp [Function.update_same] at hj
      · rw [Function.update_noteq hij] at hj
        exact h2 j hj

theorem loadReachable_inv {n : Nat} {s : ConcState n}
    (h : LoadReachable n s) : LoadInv n s := by
  induction h with
  | refl => exact loadInv_init n
  | tail _ hbc ih => exact loadStep_inv hbc ih

/-! ### Transcript assembly: `" ".join` vs the spec's wording -/

theorem intercalate_go_eq (xs : List String) (acc : String) :
    String.intercalate.go acc " " xs = acc ++ specTranscriptTail xs := by
  induction xs generalizing acc with
  | nil => simp [String.intercalate.go, specTranscriptTail, String.append_empty]
  | cons a as ih =>
    rw [show String.intercalate.go acc " " (a :: as) =
          String.intercalate.go (acc ++ " " ++ a) " " as from rfl, ih]
    simp [specTranscriptTail, String.append_assoc]

theorem specTranscript_cons (a : String) (xs : List String) :
    specTranscript (a :: xs) = a ++ specTranscriptTail xs := by
  induction xs generalizing a with
  | nil => simp [specTranscript, specTranscriptTail, String.append_empty]
  | cons b bs ih =>
    rw [show specTranscript (a :: b :: bs) = a ++ " " ++ specTranscript (b :: bs)
          from rfl, ih]
    simp [specTranscriptTail, String.append_assoc]

theorem joinSegments_eq_specTranscript (segs : List String) :
    joinSegments segs = specTranscript segs := by
  cases segs with
  | nil => rfl
  | cons a as =>
    rw [show joinSegments (a :: as) = String.intercalate.go a " " as from rfl,
        intercalate_go_eq, specTranscript_cons]

/-! ### The claims -/

/-- C1: for every request, audio or video, and for every exit path
(success or any stage failure), every temporary file created during the
request (downloaded .ogg/.mp4, normalized .wav, synthesized .mp3, remuxed
.mp4) has been deleted by the time the request handler returns: zero
artifacts attributable to the request remain. -/
theorem C1_no_temp_artifact_leak (envA : AudioEnv) (envV : VideoEnv) :
    (handle_audio envA World.init).files = [] ∧
    (handle_video envV World.init).files = [] := by
  constructor
  · obtain ⟨lo, dl, ⟨dec, ex, tr, tl⟩, tts, rp⟩ := envA
    cases lo <;> cases dl <;> cases dec <;> cases ex <;> cases tr <;> cases tl <;>
      cases tts <;> cases rp <;> rfl
  · obtain ⟨lo, dl, hat, exa, ⟨dec, ex, tr, tl⟩, tts, mux, rp⟩ := envV
    cases lo <;> cases dl <;> cases hat <;> cases exa <;> cases dec <;> cases ex <;>
      cases tr <;> cases tl <;> cases tts <;> cases rp <;> rfl

/-- C2: whenever any pipeline stage raises inside a request handler's try
block, the handler catches it at its boundary and the user receives
exactly one message, the fixed text determined only by the media kind,
with no finer-grained error text and no partial result reply. -/
theorem C2_fixed_error_message_per_media_kind :
    (∀ (env : AudioEnv) (w : World) (e : PyErr),
        (run_audio_try env w).1 = .error e →
        (handle_audio env w).replies = w.replies ++
          [Reply.text "❌ Error processing audio. Please try again."]) ∧
    (∀ (env : VideoEnv) (w : World) (e : PyErr),
        (run_video_try env w).1 = .error e →
        (handle_video env w).replies = w.replies ++
          [Reply.text "❌ Error processing video. Please try again."]) := by
  constructor
  · intro env w e h
    obtain ⟨lo, dl, ⟨dec, ex, tr, tl⟩, tts, rp⟩ := env
    cases lo <;> cases dl <;> cases dec <;> cases ex <;> cases tr <;> cases tl <;>
      cases tts <;> cases rp <;>
      first
      | rfl
      | exact Except.noConfusion h
  · intro env w e h
    obtain ⟨lo, dl, hat, exa, ⟨dec, ex, tr, tl⟩, tts, mux, rp⟩ := env
    cases lo <;> cases dl <;> cases hat <;> cases exa <;> cases dec <;> cases ex <;>
      cases tr <;> cases tl <;> cases tts <;> cases rp <;>
      first
      | rfl
      | exact Except.noConfusion h

/-- C2 witness: a corrupt audio attachment (decode raises) yields exactly
the fixed audio-context message, and a failed video download yields
exactly the fixed video-context message. -/
theorem C2_fixed_error_message_per_media_kind_witness :
    (handle_audio ⟨true, true, ⟨none, true, some [], some ""⟩, true, true⟩
        World.init).replies =
      [Reply.text "❌ Error processing audio. Please try again."] ∧
    (handle_video ⟨true, false, true, true, ⟨none, true, none, none⟩, true, 0, true⟩
        World.init).replies =
      [Reply.text "❌ Error processing video. Please try again."] :=
  ⟨C2_fixed_error_message_per_media_kind.1
      ⟨true, true, ⟨none, true, some [], some ""⟩, true, true⟩
      World.init .decodeError rfl,
   C2_fixed_error_message_per_media_kind.2
      ⟨true, false, true, true, ⟨none, true, none, none⟩, true, 0, true⟩
      World.init .downloadError rfl⟩

/-- C3: on every terminal edge of either handler (successful reply or any
failure after the acknowledgment was sent), the acknowledgment message is
deleted exactly once. -/
theorem C3_ack_deleted_exactly_once (envA : AudioEnv) (envV : VideoEnv)
    (w : World) :
    (handle_audio envA w).ackDeletes = w.ackDeletes + 1 ∧
    (handle_video envV w).ackDeletes = w.ackDeletes + 1 := by
  constructor
  · obtain ⟨lo, dl, ⟨dec, ex, tr, tl⟩, tts, rp⟩ := envA
    cases lo <;> cases dl <;> cases dec <;> cases ex <;> cases tr <;> cases tl <;>
      cases tts <;> cases rp <;> rfl
  · obtain ⟨lo, dl, hat, exa, ⟨dec, ex, tr, tl⟩, tts, mux, rp⟩ := envV
    cases lo <;> cases dl <;> cases hat <;> cases exa <;> cases dec <;> cases ex <;>
      cases tr <;> cases tl <;> cases tts <;> cases rp <;> rfl

/-- C4: the readiness check is idempotent and safe under concurrent calls:
across all interleavings of any number of tasks running `load_model`, at
most one underlying model-construction call ever executes; and when the
model is already loaded the uncontended fast path returns at once without
touching the state. -/
theorem C4_at_most_one_model_construction :
    (∀ (n : Nat) (s : ConcState n), LoadReachable n s → s.constructions ≤ 1) ∧
    (∀ (ok : Bool) (s : LoadState), s.model_loaded = true →
        load_model ok s = (.ok (), s)) := by
  constructor
  · intro n s h
    exact (loadReachable_inv h).2.2.2
  · intro ok s h
    simp [load_model, h]

/-- C4 witness: the initial two-task state is reachable and satisfies the
bound, and a call on an already-loaded state is the identity. -/
theorem C4_at_most_one_model_construction_witness :
    (ConcState.init 2).constructions ≤ 1 ∧
    load_model true ⟨true, 1⟩ = (.ok (), ⟨true, 1⟩) :=
  ⟨C4_at_most_one_model_construction.1 2 (ConcState.init 2)
      Relation.ReflTransGen.refl,
   C4_at_most_one_model_construction.2 true ⟨true, 1⟩ rfl⟩

/-- C5: if the underlying model construction raises, the exception
propagates to the caller, `model_loaded` remains false, exactly one
construction attempt is made in the call (no internal retry), and a
subsequent call attempts construction again. -/
theorem C5_construction_failure_propagates (s : LoadState)
    (h : s.model_loaded = false) :
    (load_model false s).1 = .error .modelLoadError ∧
    ((load_model false s).2).model_loaded = false ∧
    ((load_model false s).2).constructions = s.constructions + 1 ∧
    ∀ ok : Bool,
      ((load_model ok (load_model false s).2).2).constructions =
        s.constructions + 2 := by
  refine ⟨?_, ?_, ?_, ?_⟩
  · simp [load_model, h]
  · simp [load_model, h]
  · simp [load_model, h]
  · intro ok
    cases ok <;> simp [load_model, h]

/-- C5 witness: construction failure on the fresh state. -/
theorem C5_construction_failure_propagates_witness :
    (load_model false ⟨false, 0⟩).1 = .error .modelLoadError ∧
    ((load_model false ⟨false, 0⟩).2).model_loaded = false ∧
    ((load_model false ⟨false, 0⟩).2).constructions = 0 + 1 ∧
    ∀ ok : Bool,
      ((load_model ok (load_model false ⟨false, 0⟩).2).2).constructions =
        0 + 2 :=
  C5_construction_failure_propagates ⟨false, 0⟩ rfl

/-- C6: the assembled source-language transcript (the evident intent of
line 66, whose enclosing call, as committed, is never closed and does not
parse) equals the segments' texts concatenated in segment order with a
single space between consecutive segments; on ["salom", "dunyo"] it is
"salom dunyo". -/
theorem C6_transcript_single_space_join (segs : List String) :
    joinSegments segs = specTranscript segs ∧
    joinSegments ["salom", "dunyo"] = "salom dunyo" :=
  ⟨joinSegments_eq_specTranscript segs, rfl⟩

/-- C7: for the empty sequence of recognized segments, the assembled
transcript is the empty string, the empty transcript is passed to
translation unchanged, and the transcribe-and-translate pipeline completes
without raising (the evident intent of lines 62-73, which as committed do
not parse). -/
theorem C7_empty_transcript_flows_through (env : PipelineEnv) (w : World)
    (a0 : AudioSegment) (tr : String)
    (hdec : env.decodeRes = some a0) (hexp : env.exportOk = true)
    (htr : env.transcribeRes = some [])
    (htl : env.translateRes = some tr) :
    joinSegments [] = "" ∧
    (process_audio env w).1 = .ok tr ∧
    (process_audio env w).2.translateArgs = w.translateArgs ++ [""] := by
  obtain ⟨dec, ex, trr, tll⟩ := env
  dsimp only at hdec hexp htr htl
  subst hdec hexp htr htl
  exact ⟨rfl, rfl, rfl⟩

/-- C7 witness: a concrete silent clip. -/
theorem C7_empty_transcript_flows_through_witness :
    joinSegments [] = "" ∧
    (process_audio ⟨some ⟨44100, 2⟩, true, some [], some ""⟩ World.init).1 =
      .ok "" ∧
    (process_audio ⟨some ⟨44100, 2⟩, true, some [], some ""⟩
        World.init).2.translateArgs = [] ++ [""] :=
  C7_empty_transcript_flows_through ⟨some ⟨44100, 2⟩, true, some [], some ""⟩
    World.init ⟨44100, 2⟩ "" rfl rfl rfl rfl

/-- C8: for every decodable input audio container, the normalization step
produces exactly one temporary WAV artifact, and the audio written to it
is mono (one channel) at a 16 kHz sample rate. -/
theorem C8_normalization_mono_16k (env : PipelineEnv) (w : World)
    (a0 : AudioSegment) (hdec : env.decodeRes = some a0)
    (hexp : env.exportOk = true) :
    ∃ a : AudioSegment,
      (process_audio env w).2.wavWrites = w.wavWrites ++ [a] ∧
      a.channels = 1 ∧ a.frame_rate = 16000 ∧
      ((process_audio env w).2.created.filter
          fun p => p.2 = FileKind.wavFile).length =
        (w.created.filter fun p => p.2 = FileKind.wavFile).length + 1 := by
  obtain ⟨dec, ex, trr, tll⟩ := env
  dsimp only at hdec hexp
  subst hdec hexp
  refine ⟨(a0.set_frame_rate 16000).set_channels 1, ?_, rfl, rfl, ?_⟩ <;>
    cases trr <;> cases tll <;> rfl

/-- C8 witness: a stereo 44.1 kHz input. -/
theorem C8_normalization_mono_16k_witness :
    ∃ a : AudioSegment,
      (process_audio ⟨some ⟨44100, 2⟩, true, some ["salom"], some "hello"⟩
          World.init).2.wavWrites = [] ++ [a] ∧
      a.channels = 1 ∧ a.frame_rate = 16000 ∧
      ((process_audio ⟨some ⟨44100, 2⟩, true, some ["salom"], some "hello"⟩
          World.init).2.created.filter
            fun p => p.2 = FileKind.wavFile).length =
        (([] : List (Nat × FileKind)).filter
            fun p => p.2 = FileKind.wavFile).length + 1 :=
  C8_normalization_mono_16k
    ⟨some ⟨44100, 2⟩, true, some ["salom"], some "hello"⟩ World.init
    ⟨44100, 2⟩ rfl rfl

/-- C9: the video handler never inspects the exit status of the external
mux invocation — the handler's entire observable behavior is invariant
under the status — and for every exit status, once the stages before the
mux succeeded, delivery of the output file to the chat is attempted. -/
theorem C9_mux_exit_status_ignored :
    (∀ (env : VideoEnv) (w : World) (e : Nat),
        handle_video { env with muxExit := e } w = handle_video env w) ∧
    (∀ (env : VideoEnv) (w : World),
        env.loadOk = true → env.downloadOk = true →
        env.hasAudioTrack = true → env.extractOk = true →
        env.pipe.decodeRes.isSome = true → env.pipe.exportOk = true →
        env.pipe.transcribeRes.isSome = true →
        env.pipe.translateRes.isSome = true → env.ttsOk = true →
        Reply.video "Translated Video" ∈ (handle_video env w).replyAttempts) := by
  constructor
  · intro env w e
    obtain ⟨lo, dl, hat, exa, ⟨dec, ex, tr, tl⟩, tts, mux, rp⟩ := env
    cases lo <;> cases dl <;> cases hat <;> cases exa <;> cases dec <;> cases ex <;>
      cases tr <;> cases tl <;> cases tts <;> cases rp <;> rfl
  · intro env w h1 h2 h3 h4 h5 h6 h7 h8 h9
    obtain ⟨lo, dl, hat, exa, ⟨dec, ex, tr, tl⟩, tts, mux, rp⟩ := env
    dsimp only at h1 h2 h3 h4 h5 h6 h7 h8 h9
    subst h1 h2 h3 h4 h6 h9
    obtain ⟨a0, rfl⟩ := Option.isSome_iff_exists.mp h5
    obtain ⟨segs, rfl⟩ := Option.isSome_iff_exists.mp h7
    obtain ⟨tr0, rfl⟩ := Option.isSome_iff_exists.mp h8
    cases rp <;>
      simp [handle_video, run_video_try, process_audio, World.create,
            World.unlink, World.send, World.sendFailed]

/-- C9 witness: nonzero and zero mux exit statuses give the same behavior,
and delivery is attempted on the all-stages-succeed environment. -/
theorem C9_mux_exit_status_ignored_witness :
    handle_video
        { (⟨true, true, true, true, ⟨some ⟨44100, 2⟩, true, some ["salom"],
            some "hello"⟩, true, 0, true⟩ : VideoEnv) with muxExit := 1 }
        World.init =
      handle_video
        ⟨true, true, true, true, ⟨some ⟨44100, 2⟩, true, some ["salom"],
          some "hello"⟩, true, 0, true⟩ World.init ∧
    Reply.video "Translated Video" ∈
      (handle_video
        ⟨true, true, true, true, ⟨some ⟨44100, 2⟩, true, some ["salom"],
          some "hello"⟩, true, 1, false⟩ World.init).replyAttempts :=
  ⟨C9_mux_exit_status_ignored.1
      ⟨true, true, true, true, ⟨some ⟨44100, 2⟩, true, some ["salom"],
        some "hello"⟩, true, 0, true⟩ World.init 1,
   C9_mux_exit_status_ignored.2
      ⟨true, true, true, true, ⟨some ⟨44100, 2⟩, true, some ["salom"],
        some "hello"⟩, true, 1, false⟩ World.init
      rfl rfl rfl rfl rfl rfl rfl rfl rfl⟩

/-- C10: for every inbound video whose container has no audio track, audio
extraction raises (the extracted-audio accessor is absent), the request
fails without crashing the process (the handler returns normally), the
user receives exactly the fixed video-context error message, and the
acknowledgment message is still deleted. -/
theorem C10_video_without_audio_track (env : VideoEnv) (w : World)
    (hload : env.loadOk = true) (hdl : env.downloadOk = true)
    (hat : env.hasAudioTrack = false) :
    (run_video_try env w).1 = .error .noAudioTrack ∧
    (handle_video env w).replies =
      w.replies ++ [Reply.text "❌ Error processing video. Please try again."] ∧
    (handle_video env w).ackDeletes = w.ackDeletes + 1 := by
  obtain ⟨lo, dl, hat', exa, pipe, tts, mux, rp⟩ := env
  dsimp only at hload hdl hat
  subst hload hdl hat
  exact ⟨rfl, rfl, rfl⟩

/-- C10 witness: a concrete silent-container video request. -/
theorem C10_video_without_audio_track_witness :
    (run_video_try
        ⟨true, true, false, true, ⟨some ⟨44100, 2⟩, true, some [], some ""⟩,
          true, 0, true⟩ World.init).1 = .error .noAudioTrack ∧
    (handle_video
        ⟨true, true, false, true, ⟨some ⟨44100, 2⟩, true, some [], some ""⟩,
          true, 0, true⟩ World.init).replies =
      [] ++ [Reply.text "❌ Error processing video. Please try again."] ∧
    (handle_video
        ⟨true, true, false, true, ⟨some ⟨44100, 2⟩, true, some [], some ""⟩,
          true, 0, true⟩ World.init).ackDeletes = 0 + 1 :=
  C10_video_without_audio_track
    ⟨true, true, false, true, ⟨some ⟨44100, 2⟩, true, some [], some ""⟩,
      true, 0, true⟩ World.init rfl rfl rfl

end AudioTranslator
